import Mathlib

/-!
Shallow embedding of the web-page/view event logic of the orchid repository
(src/orchid/widgets/web/__init__.py), together with theorems settling the
specification claims about it.

Modelling conventions:
- Calls into the host toolkit (PyQt5) whose results flow into the embedded
  code become explicit parameters (for example, the engine-reported favicon
  of QWebEngineView.icon becomes an `Option QIcon` argument, None mapping
  to `Option.none`).
- Python-level failures of the source (attribute lookups that cannot
  succeed, calls with the wrong arity or argument type) are modelled with
  an explicit `Except PyErr` result; each such failure point is a named
  definition whose doc comment records why the underlying Python evaluation
  raises.
- Handlers are functions from their inputs (and the user answers any dialog
  would produce) to an observable-effects record paired with the
  `Except PyErr Unit` outcome of running the handler body.
-/

namespace Orchid

/-- Python runtime errors that the embedded handlers can raise. -/
inductive PyErr where
  | attributeError (obj meth : String)
  | typeErr (msg : String)
  | unboundLocalError (name : String)
deriving DecidableEq, Repr

/-- QStyle standard icons used by WebView.get_favicon (source lines 330-339). -/
inductive StandardPixmap where
  | SP_BrowserStop
  | SP_BrowserReload
  | SP_MessageBoxInformation
deriving DecidableEq, Repr

/-- An icon value: the null QIcon (what the toolkit constructs when there
is nothing to show), a native favicon reported by the engine for the page
(identified abstractly by a number), or a toolkit standard icon. -/
inductive QIcon where
  | nullIcon
  | native (id : Nat)
  | standard (p : StandardPixmap)
deriving DecidableEq, Repr

/-- QWebEngineView.icon for one page: the native favicon when the page
reports one, and the null QIcon otherwise. Under the binding in use it
returns a QIcon object by value in every case; it is never Python None. -/
def webview_icon (favicon : Option Nat) : QIcon :=
  match favicon with
  | some i => QIcon.native i
  | none => QIcon.nullIcon

/-- Python `is not None` test at source line 326 applied to the value of
self.icon(): that value is a QIcon object in every case, never the None
singleton, so the test holds for every QIcon, the null icon included. -/
def qicon_is_not_none (icon : QIcon) : Bool :=
  true

/-- WebView.get_favicon (source lines 315-339). The parameter `favicon` is
the page's native favicon when it reports one. Transcription: bind
icon = self.icon() (see webview_icon); return it if it is not None — which
holds for every QIcon value, the null icon included (see qicon_is_not_none)
— and otherwise branch on the stored load progress for a standard status
icon. The standard-icon fallback of lines 330-339 is therefore dead code:
with no native favicon the null QIcon is passed through unchanged. -/
def get_favicon (favicon : Option Nat) (load_progress : Int) : QIcon :=
  let icon := webview_icon favicon
  if qicon_is_not_none icon then
    icon
  else if load_progress < 0 then
    QIcon.standard StandardPixmap.SP_BrowserStop
  else if load_progress < 100 then
    QIcon.standard StandardPixmap.SP_BrowserReload
  else
    QIcon.standard StandardPixmap.SP_MessageBoxInformation

/-- Observable state of one WebView that the load-lifecycle handlers touch:
the stored load progress and the number of signal_favicon_changed emissions
performed so far. -/
structure ViewState where
  load_progress : Int
  favicon_emits : Nat
deriving DecidableEq, Repr

/-- WebView.__init__ (source lines 174-187): the view starts with
self._load_progress = 100 and no signal emissions have happened. -/
def WebView.init : ViewState :=
  { load_progress := 100, favicon_emits := 0 }

/-- WebView.get_load_progress (source lines 295-302): returns the stored
self._load_progress. -/
def get_load_progress (s : ViewState) : Int :=
  s.load_progress

/-- Attribute lookup self.get_icon on a WebView. The class WebView (source
lines 164-397) defines _on_load_started, _on_load_progress_changed,
_on_load_finished, _on_favicon_changed, _on_render_process_terminated,
_on_webaction_changed, _on_dev_tools_requested, set_page, get_load_progress,
is_webaction_enabled, get_favicon, createWindow and contextMenuEvent; none of
its Qt base classes (QWebEngineView, QWidget, QObject) has a method named
get_icon either (the toolkit method is icon). The lookup therefore raises
AttributeError. -/
def webview_get_icon : Except PyErr QIcon :=
  Except.error (PyErr.attributeError "WebView" "get_icon")

/-- WebView._on_load_started (source lines 189-194): first sets
self._load_progress = 0, then evaluates self.get_icon() as the argument of
signal_favicon_changed.emit. The attribute lookup raises (see
webview_get_icon), so the emit call is never reached. -/
def on_load_started (s : ViewState) : ViewState × Except PyErr Unit :=
  let s1 : ViewState := { s with load_progress := 0 }
  match webview_get_icon with
  | Except.error e => (s1, Except.error e)
  | Except.ok _ =>
    ({ s1 with favicon_emits := s1.favicon_emits + 1 }, Except.ok ())

/-- WebView._on_load_progress_changed (source lines 196-203): stores the
delivered progress value, nothing else. -/
def on_load_progress_changed (s : ViewState) (progress : Int) :
    ViewState × Except PyErr Unit :=
  ({ s with load_progress := progress }, Except.ok ())

/-- WebView._on_load_finished (source lines 205-214): stores 100 on success
and -1 on failure; the favicon emission is commented out in the source. -/
def on_load_finished (s : ViewState) (success : Bool) :
    ViewState × Except PyErr Unit :=
  ({ s with load_progress := if success then 100 else -1 }, Except.ok ())

/-- The web-engine permission features a page may request (the Feature enum
of the toolkit page class). The first seven are the keys of the question
table in WebPage._on_feature_permission_requested (source lines 98-106);
Notifications is a Feature value of later engine releases with no entry in
that table, so it exercises the dict-get default of source line 109. -/
inductive Feature where
  | Geolocation
  | MediaAudioCapture
  | MediaVideoCapture
  | MediaAudioVideoCapture
  | MouseLock
  | DesktopVideoCapture
  | DesktopAudioVideoCapture
  | Notifications
deriving DecidableEq, Repr

/-- The feature-to-question table of source lines 98-106. self.tr and the
str.format calls return plain Python str values; the table is keyed by the
seven mapped features, and `Option.none` stands for a feature with no entry
(the dict lookup misses). -/
def featureQuestion (host : String) : Feature → Option String
  | Feature.Geolocation =>
      some ("Allow " ++ host ++ " to access your location information?")
  | Feature.MediaAudioCapture =>
      some ("Allow " ++ host ++ " to access your microphone?")
  | Feature.MediaVideoCapture =>
      some ("Allow " ++ host ++ " to access your webcam?")
  | Feature.MediaAudioVideoCapture =>
      some ("Allow " ++ host ++ " to access your microphone and webcam?")
  | Feature.MouseLock =>
      some ("Allow " ++ host ++ " to lock your mouse cursor?")
  | Feature.DesktopVideoCapture =>
      some ("Allow " ++ host ++ " to capture video of your desktop?")
  | Feature.DesktopAudioVideoCapture =>
      some ("Allow " ++ host ++ " to capture audio and video of your desktop?")
  | Feature.Notifications => none

/-- Evaluation of question.isEmpty() at source line 110. The value bound to
question is a Python str: self.tr returns str under the binding in use, and
the dict-get default of line 109 is the str literal with no characters.
Python str has no attribute isEmpty (that is the C++ QString interface), so
the attribute lookup raises AttributeError for every receiver, before the
call could even happen. -/
def str_isEmpty (q : String) : Except PyErr Bool :=
  Except.error (PyErr.attributeError "str" "isEmpty")

/-- The permission decision written back through setFeaturePermission. -/
inductive PermissionDecision where
  | grantedByUser
  | deniedByUser
deriving DecidableEq, Repr

/-- Observable effects of one run of the feature-permission handler: the
question dialogs shown and the setFeaturePermission call made, if any. -/
structure FeatureRequestOutcome where
  prompts : List String
  decision : Option PermissionDecision
deriving DecidableEq, Repr

/-- WebPage._on_feature_permission_requested (source lines 88-113), run on a
request from `host` for `feature`, with `userAnswersYes` the answer any
question dialog would get. Transcription of the body: build the question
table, take the entry for the feature with the empty-str default, then
evaluate the line-110 condition `not question.isEmpty() and
QMessageBox.question(...) == QMessageBox.Yes`. The isEmpty lookup raises
(see str_isEmpty), so neither branch of the if runs. (The def signature of
the source, line 88, also declares a spurious third parameter named Feature
— a comma where a type annotation was intended — so the two-argument signal
cannot even invoke the slot; the body is modelled as if reached.) -/
def on_feature_permission_requested (host : String) (feature : Feature)
    (userAnswersYes : Bool) : FeatureRequestOutcome × Except PyErr Unit :=
  let question := (featureQuestion host feature).getD ""
  match str_isEmpty question with
  | Except.error e => ({ prompts := [], decision := none }, Except.error e)
  | Except.ok isEmp =>
    if !isEmp then
      if userAnswersYes then
        ({ prompts := [question],
           decision := some PermissionDecision.grantedByUser }, Except.ok ())
      else
        ({ prompts := [question],
           decision := some PermissionDecision.deniedByUser }, Except.ok ())
    else
      ({ prompts := [],
         decision := some PermissionDecision.deniedByUser }, Except.ok ())

/-- A client-certificate selection event: the list of eligible certificates
(certificates identified abstractly by numbers) delivered by the engine.
Under the binding in use, QWebEngineClientCertificateSelection.certificates
returns a plain Python list. -/
structure ClientCertSelection where
  certificates : List Nat
deriving DecidableEq, Repr

/-- Evaluation of selection.certificates().at(0) at source line 161. The
receiver is a Python list; list has no attribute `at` (that is the C++
QVector interface), so the lookup raises AttributeError. -/
def pyList_at (xs : List Nat) (i : Nat) : Except PyErr Nat :=
  Except.error (PyErr.attributeError "list" "at")

/-- Observable effects of the client-certificate handler: the certificate
passed to selection.select, if any, and the dialogs shown (always none in
the source: the handler contains no dialog call at all). -/
structure CertSelectionOutcome where
  selected : Option Nat
  prompts : List String
deriving DecidableEq, Repr

/-- WebPage._on_select_client_certificate (source lines 154-161): a single
statement, selection.select(selection.certificates().at(0)). The argument
evaluation raises (see pyList_at), so select is never called. -/
def on_select_client_certificate (sel : ClientCertSelection) :
    CertSelectionOutcome × Except PyErr Unit :=
  match pyList_at sel.certificates 0 with
  | Except.error e => ({ selected := none, prompts := [] }, Except.error e)
  | Except.ok c => ({ selected := some c, prompts := [] }, Except.ok ())

/-- A certificate error delivered by the engine to WebPage.certificateError:
the isOverridable flag and the errorDescription text. -/
structure CertificateErrorInfo where
  overridable : Bool
  description : String
deriving DecidableEq, Repr

/-- Evaluation of QDialog(self) inside WebPage (source lines 58, 76, 126).
The QDialog constructor of the toolkit requires a QWidget parent; self here
is the WebPage, whose classes are QWebEnginePage and QObject, not QWidget,
so the binding rejects the argument with TypeError and no dialog object is
created. -/
def qdialog_page_parent : Except PyErr Unit :=
  Except.error (PyErr.typeErr "QDialog parent must be a QWidget, got WebPage")

/-- Evaluation of QMessageBox.critical(self, ...) at source line 64: the
first argument is the parent widget and must be a QWidget; self is the
WebPage (not a QWidget), so the binding raises TypeError and no message box
is shown. -/
def qmessagebox_critical_page_parent : Except PyErr Unit :=
  Except.error
    (PyErr.typeErr "QMessageBox.critical parent must be a QWidget, got WebPage")

/-- WebPage.certificateError (source lines 50-65), with `userAccepts` the
answer the confirmation dialog would get. Transcription: on an overridable
error, construct QDialog(self), configure it, and return whether exec gave
Accepted; otherwise show QMessageBox.critical and return False. Both the
dialog construction and the critical call raise (see qdialog_page_parent and
qmessagebox_critical_page_parent), so no boolean is ever returned. -/
def certificateError (err : CertificateErrorInfo) (userAccepts : Bool) :
    Except PyErr Bool :=
  if err.overridable then
    match qdialog_page_parent with
    | Except.error e => Except.error e
    | Except.ok _ => Except.ok userAccepts
  else
    match qmessagebox_critical_page_parent with
    | Except.error e => Except.error e
    | Except.ok _ => Except.ok false

/-- The credential sink (QAuthenticator) the engine passes to the
authentication handlers: the user and password fields it carries. -/
structure Authenticator where
  user : Option String
  password : Option String
deriving DecidableEq, Repr

/-- WebPage._on_authentication_required (source lines 67-86), applied to the
engine-passed credential sink. Transcription: the body constructs
QDialog(self) — which raises, see qdialog_page_parent — and its only other
live statement is `auth = None`, which rebinds the local Python name and
performs no operation on the authenticator object (the credential-setting
calls are commented out). On every path the sink object is returned exactly
as it came in. -/
def on_authentication_required (auth : Authenticator) :
    Authenticator × Except PyErr Unit :=
  match qdialog_page_parent with
  | Except.error e => (auth, Except.error e)
  | Except.ok _ => (auth, Except.ok ())

/-- WebPage._on_proxy_authentication_required (source lines 115-136): same
body shape as _on_authentication_required (QDialog(self) construction, then
the local rebinding `auth = None`), with an extra proxy_host parameter that
the live code never uses. The sink is returned exactly as it came in. -/
def on_proxy_authentication_required (auth : Authenticator)
    (proxy_host : String) : Authenticator × Except PyErr Unit :=
  match qdialog_page_parent with
  | Except.error e => (auth, Except.error e)
  | Except.ok _ => (auth, Except.ok ())

/-- WebPage.RenderProcessTerminationStatus (source lines 22-26): a Python
enum.Enum class whose four members wrap the engine termination statuses.
These are the values the if/elif chain of lines 234-241 compares against. -/
inductive TerminationStatus where
  | NormalTerminationStatus
  | AbnormalTerminationStatus
  | CrashedTerminationStatus
  | KilledTerminationStatus
deriving DecidableEq, Repr

/-- The four engine termination statuses as the renderProcessTerminated
signal actually delivers them: sip enumeration values (int subclass), not
members of the WebPage.RenderProcessTerminationStatus enum.Enum class. -/
inductive SipTerminationStatus where
  | NormalTerminationStatus
  | AbnormalTerminationStatus
  | CrashedTerminationStatus
  | KilledTerminationStatus
deriving DecidableEq, Repr

/-- Python equality test of lines 234-240 between the delivered sip status
value and a WebPage.RenderProcessTerminationStatus enum.Enum member: int
equality returns NotImplemented against an Enum member and enum.Enum
equality is identity based, so the comparison is False for every pair of
values, even matching ones. -/
def statusEqEnumMember (v : SipTerminationStatus)
    (m : TerminationStatus) : Bool :=
  false

/-- Evaluation of QMessageBox.Question(...) at source line 244. The
attribute Question (capital Q) is the Icon enumeration constant of
QMessageBox, an integer value, not the static question function the other
handlers use; calling an integer raises TypeError. (The handler in fact
raises earlier, while evaluating the unbound argument msg.) -/
def qmessagebox_Question_called : Except PyErr Int :=
  Except.error (PyErr.typeErr "QMessageBox.Question value is not callable")

/-- Observable effects of one run of the render-termination handler; msg is
the cause string the if/elif chain bound, `Option.none` when no branch ran
and the local name was never assigned. -/
structure TerminationOutcome where
  msg : Option String
  prompted : Bool
  reloaded : Bool
deriving DecidableEq, Repr

/-- WebView._on_render_process_terminated (source lines 225-247), with
`userAnswersYes` the answer any reload prompt would get. Transcription:
the if/elif chain of lines 234-241 tests the delivered sip status against
the four Enum members — every test is False (see statusEqEnumMember), so no
branch assigns the local msg — then line 244 evaluates msg as an argument
of the prompt call, raising UnboundLocalError when it is unassigned. On
the (dead) path where msg were bound, the prompt call itself raises (see
qmessagebox_Question_called) before reply could be compared with
QMessageBox.Yes (the toolkit constant 16384) to decide the reload. -/
def on_render_process_terminated (status : SipTerminationStatus)
    (status_code : Int) (userAnswersYes : Bool) :
    TerminationOutcome × Except PyErr Unit :=
  let msg : Option String :=
    if statusEqEnumMember status TerminationStatus.NormalTerminationStatus then
      some "Render process normal exit."
    else if statusEqEnumMember status
        TerminationStatus.AbnormalTerminationStatus then
      some "Render process abnormal exit."
    else if statusEqEnumMember status
        TerminationStatus.CrashedTerminationStatus then
      some "Render process crashed."
    else if statusEqEnumMember status
        TerminationStatus.KilledTerminationStatus then
      some "Render process killed."
    else
      none
  match msg with
  | none =>
      ({ msg := none, prompted := false, reloaded := false },
       Except.error (PyErr.unboundLocalError "msg"))
  | some m =>
    match qmessagebox_Question_called with
    | Except.error e =>
        ({ msg := some m, prompted := false, reloaded := false },
         Except.error e)
    | Except.ok reply =>
        if reply = 16384 then
          ({ msg := some m, prompted := true, reloaded := true },
           Except.ok ())
        else
          ({ msg := some m, prompted := true, reloaded := false },
           Except.ok ())

/-- WebPage.WebWindowType (source lines 28-32): a Python enum.Enum class
whose four members wrap the engine window types. These are the values the
branch guards of lines 353-362 compare against. -/
inductive WebWindowType where
  | WebBrowserWindow
  | WebBrowserTab
  | WebDialog
  | WebBrowserBackgroundTab
deriving DecidableEq, Repr

/-- The four engine window types as the engine actually passes them to the
createWindow virtual: sip enumeration values (int subclass), not members of
the WebPage.WebWindowType enum.Enum class. -/
inductive SipWindowType where
  | WebBrowserWindow
  | WebBrowserTab
  | WebDialog
  | WebBrowserBackgroundTab
deriving DecidableEq, Repr

/-- Python equality test of lines 353-362 between the engine-passed sip
WebWindowType value and a WebPage.WebWindowType enum.Enum member: int
equality returns NotImplemented against an Enum member and enum.Enum
equality is identity based, so the comparison is False for every pair of
values, even matching ones. -/
def windowTypeEqEnumMember (v : SipWindowType) (m : WebWindowType) : Bool :=
  false

/-- View handles a createWindow call can yield. Modelled from the spec: the
tab container collaborator (orchid.widgets.windows, not under src/) returns
a fresh foreground-tab view from add_tab, a fresh background-tab view from
add_background_tab, and the calling view's current tab from current_tab; a
popup window owns its own view. The four handles are pairwise distinct
surfaces. -/
inductive ViewHandle where
  | newForegroundTab
  | newBackgroundTab
  | currentTab
  | popupView
deriving DecidableEq, Repr

/-- Evaluation of popup_window.signal_dev_tools_requested.connect(None):
the bound-signal connect of the binding requires a callable or signal
argument and raises TypeError on None. -/
def signal_connect_none : Except PyErr Unit :=
  Except.error (PyErr.typeErr "connect argument must be callable, got NoneType")

/-- Observable effects of one run of WebView.createWindow. -/
structure CreateWindowOutcome where
  result : Option ViewHandle
  popupCreatedWithPageProfile : Bool
  devToolsEmittedNow : Nat
  handlerWired : Bool
  raised : Option PyErr
deriving DecidableEq, Repr

/-- WebView.createWindow (source lines 341-369), on the sip window-type
value the engine passes. Transcription of the branch chain: the guard of
each branch compares window_type with a WebPage.WebWindowType enum.Enum
member — every comparison is False (see windowTypeEqEnumMember), so all
four guarded branches are dead and every engine call falls to the else
branch and returns None. The dead branch bodies are transcribed anyway:
tab_widget.add_tab(), tab_widget.add_background_tab(),
tab_widget.current_tab(), and for WebDialog the construction of
PopupWindow(self.page().profile()) followed by
popup_window.signal_dev_tools_requested.connect(self._on_dev_tools_requested())
— an expression that CALLS the handler (one immediate dev-tools emission,
yielding None) and then raises on connect(None), see signal_connect_none. -/
def createWindow (t : SipWindowType) : CreateWindowOutcome :=
  if windowTypeEqEnumMember t WebWindowType.WebBrowserTab then
    { result := some ViewHandle.newForegroundTab,
      popupCreatedWithPageProfile := false, devToolsEmittedNow := 0,
      handlerWired := false, raised := none }
  else if windowTypeEqEnumMember t WebWindowType.WebBrowserBackgroundTab then
    { result := some ViewHandle.newBackgroundTab,
      popupCreatedWithPageProfile := false, devToolsEmittedNow := 0,
      handlerWired := false, raised := none }
  else if windowTypeEqEnumMember t WebWindowType.WebBrowserWindow then
    { result := some ViewHandle.currentTab,
      popupCreatedWithPageProfile := false, devToolsEmittedNow := 0,
      handlerWired := false, raised := none }
  else if windowTypeEqEnumMember t WebWindowType.WebDialog then
    match signal_connect_none with
    | Except.error e =>
        { result := none, popupCreatedWithPageProfile := true,
          devToolsEmittedNow := 1, handlerWired := false, raised := some e }
    | Except.ok _ =>
        { result := some ViewHandle.popupView,
          popupCreatedWithPageProfile := true, devToolsEmittedNow := 1,
          handlerWired := false, raised := none }
  else
    { result := none, popupCreatedWithPageProfile := false,
      devToolsEmittedNow := 0, handlerWired := false, raised := none }

/-- Evaluation of menu.addSeperator() at source line 386. QMenu has an
addSeparator method; the misspelled name addSeperator is not an attribute of
QMenu or its bases, so the lookup raises AttributeError. -/
def qmenu_addSeperator : Except PyErr Unit :=
  Except.error (PyErr.attributeError "QMenu" "addSeperator")

/-- Evaluation of menu.insertAction(action) at source line 392. The
insertAction method takes two arguments, the action to insert before and the
new action; the one-argument call raises TypeError. -/
def qmenu_insertAction_one_arg : Except PyErr Unit :=
  Except.error (PyErr.typeErr "insertAction takes a before action and an action")

/-- Observable effects of one run of WebView.contextMenuEvent. -/
structure ContextMenuOutcome where
  inserted : Nat
  relabeled : Bool
  shown : Bool
deriving DecidableEq, Repr

/-- WebView.contextMenuEvent (source lines 371-397), on a standard context
menu that does (or does not) already contain the Inspect Element action and
the View Source action. Transcription: when the inspect action is not in
the menu, first call menu.addSeperator() if the view-source action is also
absent — which raises, see qmenu_addSeperator — then build a QAction, set
its text, connect its triggered signal to self._on_dev_tools_requested (the
method object, passed correctly here), and call menu.insertAction(action) —
which raises, see qmenu_insertAction_one_arg. When the inspect action is in
the menu, relabel it in place. Only after all that is menu.popup reached. -/
def contextMenuEvent (hasInspect hasViewSource : Bool) :
    ContextMenuOutcome × Except PyErr Unit :=
  if !hasInspect then
    let afterSep : Except PyErr Unit :=
      if !hasViewSource then qmenu_addSeperator else Except.ok ()
    match afterSep with
    | Except.error e =>
        ({ inserted := 0, relabeled := false, shown := false }, Except.error e)
    | Except.ok _ =>
      match qmenu_insertAction_one_arg with
      | Except.error e =>
          ({ inserted := 0, relabeled := false, shown := false },
           Except.error e)
      | Except.ok _ =>
          ({ inserted := 1, relabeled := false, shown := true }, Except.ok ())
  else
    ({ inserted := 0, relabeled := true, shown := true }, Except.ok ())

/-- C1: get_favicon evaluated at the failing inputs. With no native
favicon, at progress -1, 45 and 100 alike the null QIcon returned by
self.icon() is passed straight through — the is-not-None guard holds even
for the null icon — and it differs from each of the error, loading and
default standard icons the claim says are returned, so the standard-icon
fallback chain never runs; with a native favicon that favicon is returned
unmodified, as claimed. -/
theorem C1_fallback_chain_dead :
    get_favicon none (-1) = QIcon.nullIcon ∧
    get_favicon none 45 = QIcon.nullIcon ∧
    get_favicon none 100 = QIcon.nullIcon ∧
    QIcon.nullIcon ≠ QIcon.standard StandardPixmap.SP_BrowserStop ∧
    QIcon.nullIcon ≠ QIcon.standard StandardPixmap.SP_BrowserReload ∧
    QIcon.nullIcon ≠ QIcon.standard StandardPixmap.SP_MessageBoxInformation ∧
    get_favicon (some 7) (-1) = QIcon.native 7 := by
  decide

/-- C2: the load lifecycle evaluated at the failing input. After
load-started the stored progress is 0, but the handler raises
AttributeError while evaluating self.get_icon() (the method is named
get_favicon), so no favicon-changed notification is emitted — the claim
asserts one is. The progress and finish handlers then store the delivered
values verbatim: 45 after load-progress(45), 100 after a successful finish
and -1 after a failed one. -/
theorem C2_load_started_no_emission :
    (on_load_started WebView.init).1.load_progress = 0 ∧
    (on_load_started WebView.init).1.favicon_emits = 0 ∧
    (on_load_started WebView.init).2 =
      Except.error (PyErr.attributeError "WebView" "get_icon") ∧
    (on_load_progress_changed (on_load_started WebView.init).1
      45).1.load_progress = 45 ∧
    (on_load_finished (on_load_progress_changed (on_load_started
      WebView.init).1 45).1 true).1.load_progress = 100 ∧
    (on_load_finished (on_load_progress_changed (on_load_started
      WebView.init).1 45).1 false).1.load_progress = -1 :=
  ⟨rfl, rfl, rfl, rfl, rfl, rfl⟩

/-- C3: the feature-permission handler evaluated at an unmapped feature.
No prompt is shown, but the handler raises AttributeError evaluating
question.isEmpty() on a Python str before reaching setFeaturePermission, so
the request is never resolved to a deny decision — the claim asserts a deny
is always written back. -/
theorem C3_unmapped_feature_not_resolved :
    on_feature_permission_requested "example.org" Feature.Notifications true =
      ({ prompts := [], decision := none },
       Except.error (PyErr.attributeError "str" "isEmpty")) :=
  rfl

/-- C4: createWindow evaluated at each of the four window types the engine
can deliver. Every branch guard compares the sip value with an enum.Enum
member and is False, so every request falls to the else branch: no view is
returned for any of the four types — contrary to the claimed BrowserTab,
BackgroundTab and BrowserWindow routing — and on a Dialog request no popup
is created, no dev-tools emission happens and nothing is raised, the whole
dialog body being dead code. -/
theorem C4_createWindow_always_none :
    (createWindow SipWindowType.WebBrowserTab).result = none ∧
    (createWindow SipWindowType.WebBrowserBackgroundTab).result = none ∧
    (createWindow SipWindowType.WebBrowserWindow).result = none ∧
    (createWindow SipWindowType.WebDialog).result = none ∧
    (createWindow SipWindowType.WebDialog).popupCreatedWithPageProfile
      = false ∧
    (createWindow SipWindowType.WebDialog).devToolsEmittedNow = 0 ∧
    (createWindow SipWindowType.WebDialog).handlerWired = false ∧
    (createWindow SipWindowType.WebDialog).raised = none := by
  decide

/-- C5: the client-certificate handler evaluated on a three-certificate
selection. It never prompts, but it also never selects: evaluating
selection.certificates().at(0) raises AttributeError (Python list has no
attribute at) before selection.select is called — the claim asserts the
certificate at index 0 is selected. -/
theorem C5_client_certificate_not_selected :
    on_select_client_certificate { certificates := [10, 11, 12] } =
      ({ selected := none, prompts := [] },
       Except.error (PyErr.attributeError "list" "at")) :=
  rfl

/-- C6: certificateError evaluated on an overridable and on a
non-overridable error. Both branches raise TypeError constructing a dialog
or message box with the page (not a widget) as parent, so no dialog is
shown and no accept/reject decision is returned — the claim asserts a
dialog is shown and a decision returned on both branches. -/
theorem C6_certificateError_raises :
    certificateError { overridable := true, description := "expired" } true =
      Except.error
        (PyErr.typeErr "QDialog parent must be a QWidget, got WebPage") ∧
    certificateError { overridable := false, description := "expired" } false =
      Except.error
        (PyErr.typeErr
          "QMessageBox.critical parent must be a QWidget, got WebPage") :=
  ⟨rfl, rfl⟩

/-- C7: the render-termination handler evaluated at each of the four
delivered sip statuses (with a user who would answer Yes). The if/elif
tests compare the sip status with enum.Enum members and never succeed, so
no cause string is ever bound, the handler raises UnboundLocalError
evaluating msg at the prompt call, no reload prompt is presented and the
page is never reloaded — contrary to every part of the claim. -/
theorem C7_termination_msg_unbound :
    on_render_process_terminated
      SipTerminationStatus.CrashedTerminationStatus 1 true =
      ({ msg := none, prompted := false, reloaded := false },
       Except.error (PyErr.unboundLocalError "msg")) ∧
    on_render_process_terminated
      SipTerminationStatus.NormalTerminationStatus 0 true =
      ({ msg := none, prompted := false, reloaded := false },
       Except.error (PyErr.unboundLocalError "msg")) ∧
    on_render_process_terminated
      SipTerminationStatus.AbnormalTerminationStatus 2 true =
      ({ msg := none, prompted := false, reloaded := false },
       Except.error (PyErr.unboundLocalError "msg")) ∧
    on_render_process_terminated
      SipTerminationStatus.KilledTerminationStatus 9 true =
      ({ msg := none, prompted := false, reloaded := false },
       Except.error (PyErr.unboundLocalError "msg")) :=
  ⟨rfl, rfl, rfl, rfl⟩

/-- C8: contextMenuEvent on a menu already containing the Inspect Element
action relabels it, inserts nothing and shows the menu, as claimed; on a
menu without it the handler raises before inserting anything (TypeError
from the one-argument insertAction call when View Source is present,
AttributeError from the misspelled addSeperator when it is absent), so no
entry is inserted and the menu is never shown — the claim asserts exactly
one new entry is inserted on that branch. -/
theorem C8_contextMenu_insert_branch_fails :
    contextMenuEvent true false =
      ({ inserted := 0, relabeled := true, shown := true }, Except.ok ()) ∧
    contextMenuEvent true true =
      ({ inserted := 0, relabeled := true, shown := true }, Except.ok ()) ∧
    contextMenuEvent false true =
      ({ inserted := 0, relabeled := false, shown := false },
       Except.error
         (PyErr.typeErr "insertAction takes a before action and an action")) ∧
    contextMenuEvent false false =
      ({ inserted := 0, relabeled := false, shown := false },
       Except.error (PyErr.attributeError "QMenu" "addSeperator")) :=
  ⟨rfl, rfl, rfl, rfl⟩

/-- C9: both authentication handlers return the engine-passed credential
sink exactly as it arrived; in particular a sink that arrives without
credentials (as the engine passes it) is left unset on every path, so no
credentials are ever supplied. -/
theorem C9_credential_sink_left_unset (a : Authenticator) (ph : String)
    (hu : a.user = none) (hp : a.password = none) :
    ((on_authentication_required a).1.user = none ∧
     (on_authentication_required a).1.password = none) ∧
    ((on_proxy_authentication_required a ph).1.user = none ∧
     (on_proxy_authentication_required a ph).1.password = none) :=
  ⟨⟨hu, hp⟩, ⟨hu, hp⟩⟩

/-- C9 witness: the handlers evaluated on a fresh credential sink for a
site request and a proxy request. -/
theorem C9_witness :
    ((on_authentication_required
        { user := none, password := none }).1.user = none ∧
     (on_authentication_required
        { user := none, password := none }).1.password = none) ∧
    ((on_proxy_authentication_required
        { user := none, password := none } "proxy.local").1.user = none ∧
     (on_proxy_authentication_required
        { user := none, password := none } "proxy.local").1.password = none) :=
  C9_credential_sink_left_unset
    { user := none, password := none } "proxy.local" rfl rfl

/-- C10: a freshly constructed WebView stores load progress 100 and
get_load_progress reports it, as the claim says; but get_favicon with no
native favicon passes the null QIcon through instead of returning the
default informational icon — the is-not-None guard holds for the null icon
— so the claimed favicon consequent fails (the result does also differ
from the loading icon). -/
theorem C10_fresh_view_progress_only :
    get_load_progress WebView.init = 100 ∧
    get_favicon none (get_load_progress WebView.init) = QIcon.nullIcon ∧
    QIcon.nullIcon ≠
      QIcon.standard StandardPixmap.SP_MessageBoxInformation ∧
    QIcon.nullIcon ≠ QIcon.standard StandardPixmap.SP_BrowserReload := by
  decide

end Orchid
